import Mathlib

/-!
Verification of the LoggerBase component of the ModularSensors library.

The definitions below are a shallow embedding of src/src/LoggerBase.cpp.
Sensors are modelled by a record of the capability interface the logger
consumes (name, location, setup, update, value, variable metadata); the
sensor array is a function from indices together with an explicit count,
mirroring the SensorBase pointer array plus _sensorCount.  The SD card is
modelled as a map from filenames to line lists plus an existence flag,
matching the append-only use the code makes of SdFat.  Machine integers
are modelled by Nat and Int, with explicit reduction modulo 2 ^ 32 where
the 32-bit long and uint32_t conversions in getNow matter, with
reduction modulo 2 ^ 16 where the int product timeZone*3600 wraps on
the 16-bit int of the AVR target, and with an explicit modulo-256 index
sequence where the uint8_t loop counters matter.
-/

/-- Model of the sensor capability interface consumed by LoggerBase:
identity strings, a setup operation whose k-th call returns
setupResult k, an update operation, and the value and variable metadata
used for CSV and header generation. -/
structure SensorDev where
  name : String
  location : String
  setupResult : Nat → Bool
  updateResult : Bool
  value : String
  varName : String
  varUnit : String

/-- The (name, location) identity pair of the sensor at index i, the pair
compared by the deduplication scans in setupSensors and
updateAllSensors. -/
def pairOf (dev : Nat → SensorDev) (i : Nat) : String × String :=
  ((dev i).name, (dev i).location)

/-- The inner deduplication scan shared by setupSensors (lines 129-135)
and updateAllSensors (lines 197-208): starting from outer index i and
inner index j = i+1, while the sensor at the current outer index and the
sensor at j have equal (name, location) pairs, the outer index is moved
up to j; the scan stops at the first mismatch or at the end of the
list.  Returns the final value of the outer index. -/
def advanceIdx (n : Nat) (pair : Nat → String × String) (i j : Nat) : Nat :=
  if h : j < n then
    if pair i = pair j then advanceIdx n pair j (j + 1) else i
  else i
termination_by n - j

/-- The outer index never moves backwards in the deduplication scan. -/
theorem le_advanceIdx (n : Nat) (pair : Nat → String × String) (i j : Nat)
    (h : i ≤ j) : i ≤ advanceIdx n pair i j := by
  unfold advanceIdx
  split
  · split
    · exact Nat.le_trans h (le_advanceIdx n pair j (j + 1) (Nat.le_succ j))
    · exact Nat.le_refl i
  · exact Nat.le_refl i
termination_by n - j

/-- The deduplication scan keeps the outer index inside the list. -/
theorem advanceIdx_lt (n : Nat) (pair : Nat → String × String) (i j : Nat)
    (hi : i < n) : advanceIdx n pair i j < n := by
  unfold advanceIdx
  split
  · split
    · exact advanceIdx_lt n pair j (j + 1) (by omega)
    · exact hi
  · exact hi
termination_by n - j

/-- Characterisation of one deduplication scan started at i with j = i+1:
every index m it jumps over (i < m up to the final index) carries the
same (name, location) pair as its predecessor, and the index right after
the final index, when it is still inside the list, differs from its
predecessor. -/
theorem advanceIdx_run (n : Nat) (pair : Nat → String × String) (i : Nat) :
    (∀ m, i < m → m ≤ advanceIdx n pair i (i + 1) → pair m = pair (m - 1)) ∧
      (advanceIdx n pair i (i + 1) + 1 < n →
        pair (advanceIdx n pair i (i + 1) + 1) ≠ pair (advanceIdx n pair i (i + 1))) := by
  unfold advanceIdx
  split
  · split
    · next hlt heq =>
      have ih := advanceIdx_run n pair (i + 1)
      refine ⟨fun m hm₁ hm₂ => ?_, ih.2⟩
      rcases Nat.lt_or_ge i m with _ | _
      · rcases Nat.eq_or_lt_of_le (Nat.succ_le_of_lt hm₁) with hcase | hcase
        · simpa [← hcase] using heq.symm
        · exact ih.1 m hcase hm₂
      · omega
    · next hlt hne =>
      refine ⟨fun m hm₁ hm₂ => by omega, fun hn => ?_⟩
      exact fun hcontr => hne hcontr.symm
  · next hge =>
    refine ⟨fun m hm₁ hm₂ => by omega, fun hn => by omega⟩
termination_by n - i
decreasing_by
  have := le_advanceIdx n pair (i + 1) (i + 2) (Nat.le_succ (i + 1))
  omega

/-- The list of outer-loop indices visited by the deduplicating
iteration pattern of setupSensors and updateAllSensors, started at index
i: each visited index is processed, then the scan jumps past the run of
identical neighbours and resumes one past the end of the run. -/
def visitedFrom (n : Nat) (pair : Nat → String × String) (i : Nat) : List Nat :=
  if h : i < n then i :: visitedFrom n pair (advanceIdx n pair i (i + 1) + 1)
  else []
termination_by n - i
decreasing_by
  have := le_advanceIdx n pair i (i + 1) (Nat.le_succ i)
  omega

/-- The while loop at lines 107-125 of setupSensors: while fewer than 5
failures have accumulated on the shared setupTries counter, call setup
on the device; a success stops the retries, and each failed call leaves
the sensorSuccess variable false.  The incoming sensorSuccess argument
is the stale value left by the previous sensor, which is what the
aggregate sees only when the while body never runs at all.  Returns the
recorded success, the new shared counter, and how many setup calls were
made on this device. -/
def trySetup (dev : SensorDev) (sensorSuccess : Bool) (setupTries att : Nat) :
    Bool × Nat × Nat :=
  if h : setupTries < 5 then
    if dev.setupResult att then (true, setupTries, att + 1)
    else trySetup dev false (setupTries + 1) (att + 1)
  else (sensorSuccess, setupTries, att)
termination_by 5 - setupTries

/-- The outer loop of LoggerBase::setupSensors (lines 99-138): for each
visited index run the retry loop, AND the recorded success into the
aggregate, then skip identical neighbours.  The accumulator records, per
visited index, how many setup calls were made there.  success,
sensorSuccess and setupTries thread through exactly as the C++ locals
do. -/
def setupLoop (n : Nat) (dev : Nat → SensorDev) (i : Nat)
    (success sensorSuccess : Bool) (setupTries : Nat)
    (acc : List (Nat × Nat)) : Bool × List (Nat × Nat) :=
  if h : i < n then
    let r := trySetup (dev i) sensorSuccess setupTries 0
    setupLoop n dev (advanceIdx n (pairOf dev) i (i + 1) + 1)
      (success && r.1) r.1 r.2.1 (acc ++ [(i, r.2.2)])
  else (success, acc)
termination_by n - i
decreasing_by
  have := le_advanceIdx n (pairOf dev) i (i + 1) (Nat.le_succ i)
  omega

/-- LoggerBase::setupSensors: returns the aggregate success together
with the per-visited-index setup call counts. -/
def setupSensors (n : Nat) (dev : Nat → SensorDev) : Bool × List (Nat × Nat) :=
  setupLoop n dev 0 true false 0 []

/-- The loop of LoggerBase::updateAllSensors (lines 186-211): for each
visited index AND the update result into the aggregate, then skip
identical neighbours.  The accumulator records the indices whose update
was invoked. -/
def updateLoop (n : Nat) (dev : Nat → SensorDev) (i : Nat) (success : Bool)
    (acc : List Nat) : Bool × List Nat :=
  if h : i < n then
    updateLoop n dev (advanceIdx n (pairOf dev) i (i + 1) + 1)
      (success && (dev i).updateResult) (acc ++ [i])
  else (success, acc)
termination_by n - i
decreasing_by
  have := le_advanceIdx n (pairOf dev) i (i + 1) (Nat.le_succ i)
  omega

/-- LoggerBase::updateAllSensors: aggregate update success plus the list
of indices whose update was invoked, in invocation order. -/
def updateAllSensors (n : Nat) (dev : Nat → SensorDev) : Bool × List Nat :=
  updateLoop n dev 0 true []

/-- The accumulation loop shared verbatim by generateSensorDataCSV
(lines 382-389) and the header builder of setupLogFile (lines 358-368):
append the i-th item, then append a comma-space separator whenever i is
not the last index. -/
def joinLoop (n : Nat) (item : Nat → String) (i : Nat) (acc : String) : String :=
  if h : i < n then
    joinLoop n item (i + 1) (acc ++ item i ++ (if i + 1 ≠ n then ", " else ""))
  else acc
termination_by n - i

/-- LoggerBase::generateSensorDataCSV: the cached timestamp, a
comma-space, then each sensor value with comma-space separators between
values. -/
def generateSensorDataCSV (currentTime : String) (n : Nat)
    (value : Nat → String) : String :=
  joinLoop n value 0 (currentTime ++ ", ")

/-- The time-zone suffix computed inside LoggerBase::getDateTime_ISO8601
(lines 68-88), with the else-if chain in source order.  String(int) on
Arduino renders the decimal form with a leading minus for negatives,
matched here by toString on Int; substring(0,1) and substring(1,2) are
the first and second characters. -/
def tzString (tz : Int) : String :=
  let s := toString tz
  if -24 ≤ tz ∧ tz ≤ -10 then s ++ ":00"
  else if -10 < tz ∧ tz < 0 then s.take 1 ++ "0" ++ (s.drop 1).take 1 ++ ":00"
  else if tz = 0 then "Z"
  else if 0 < tz ∧ tz < 10 then "+0" ++ s ++ ":00"
  else if 10 ≤ tz ∧ tz ≤ 24 then "+" ++ s ++ ":00"
  else s

/-- The SD card as LoggerBase uses it: which filenames exist, and the
lines each file holds. -/
structure SDCard where
  present : String → Bool
  content : String → List String

/-- Opening a file in FILE_WRITE mode (SdFat append mode) creates it
when missing and leaves existing content alone. -/
def sdOpenWrite (sd : SDCard) (fname : String) : SDCard :=
  { present := fun g => if g = fname then true else sd.present g
    content := sd.content }

/-- Appending lines to an open file. -/
def sdAppend (sd : SDCard) (fname : String) (ls : List String) : SDCard :=
  { present := sd.present
    content := fun g => if g = fname then sd.content g ++ ls else sd.content g }

/-- The daily filename computed at lines 341-342:
loggerID_YYYY-MM-DD.txt, the date being the first ten characters of the
ISO 8601 timestamp. -/
def logFileName (loggerID dateISO : String) : String :=
  loggerID ++ "_" ++ dateISO.take 10 ++ ".txt"

/-- The quoted per-sensor column header built at lines 357-368, using
the same append-then-separator loop as the CSV builder. -/
def dataHeaderLine (n : Nat) (dev : Nat → SensorDev) (uuid : Nat → String) : String :=
  joinLoop n
    (fun i =>
      "\"" ++ (dev i).name ++ " " ++ (dev i).varName ++ " " ++ (dev i).varUnit
        ++ " (" ++ uuid i ++ ")\"")
    0 "\"Timestamp\", "

/-- The three header lines written at lines 352-371: the logger ID, the
sampling feature line, and the quoted column header. -/
def headerLines (loggerID samplingFeature : String) (n : Nat)
    (dev : Nat → SensorDev) (uuid : Nat → String) : List String :=
  [loggerID, "Sampling Feature UUID: " ++ samplingFeature,
    dataHeaderLine n dev uuid]

/-- The body of LoggerBase::setupLogFile once the filename is fixed:
record whether the file already exists, open it in append mode
(creating it when missing), and append the header lines exactly when it
did not exist at open time. -/
def setupLogFileNamed (fname : String) (hdr : List String) (sd : SDCard) :
    SDCard :=
  let oldFile := sd.present fname
  let sd1 := sdOpenWrite sd fname
  if oldFile then sd1 else sdAppend sd1 fname hdr

/-- LoggerBase::setupLogFile (lines 333-376): compute the daily
filename, then open and, when the file is new, write the three header
lines. -/
def setupLogFile (loggerID samplingFeature dateISO : String) (n : Nat)
    (dev : Nat → SensorDev) (uuid : Nat → String) (sd : SDCard) : SDCard :=
  setupLogFileNamed (logFileName loggerID dateISO)
    (headerLines loggerID samplingFeature n dev uuid) sd

/-- LoggerBase::logToSD (lines 396-406): reopen the daily file in append
mode and append the one record line. -/
def logToSD (fname recLine : String) (sd : SDCard) : SDCard :=
  sdAppend (sdOpenWrite sd fname) fname [recLine]

/-- The uint8_t loop counter used by updateAllSensors,
generateSensorDataCSV and the header loop of setupLogFile: the index
after k increments, each increment wrapping modulo 256. -/
def u8idx : Nat → Nat
  | 0 => 0
  | k + 1 => (u8idx k + 1) % 256

/-- The int loop counter used by setupSensors, sensorsSleep and
sensorsWake: the index after k increments, without wrap (int is wide
enough for any realistic sensor count). -/
def intIdx (k : Nat) : Nat := k

/-- Reduction of an integer to the 32-bit signed long of the AVR target,
as the assignments to the long currentepochtime perform it. -/
def toSigned32 (x : Int) : Int :=
  let m := x % 4294967296
  if m < 2147483648 then m else m - 4294967296

/-- Reduction of the long currentepochtime to the uint32_t return type
of getNow. -/
def toUInt32 (x : Int) : Nat := (x % 4294967296).toNat

/-- Reduction of an integer to the 16-bit signed int of the AVR target:
the product _timeZone*3600 at line 55 multiplies two ints, so it wraps
to 16 bits before being widened to long. -/
def toSigned16 (x : Int) : Int :=
  let m := x % 65536
  if m < 32768 then m else m - 65536

/-- LoggerBase::getNow (lines 52-57): store the RTC epoch reading into
the long cache, add the int product timeZone*3600 (wrapped to 16 bits
on the AVR target) to the cache, and return the cache as uint32_t.
Returns (new cache, returned value). -/
def getNow (rtcEpoch : Nat) (tz : Int) : Int × Nat :=
  let c0 := toSigned32 (rtcEpoch : Int)
  let cache := toSigned32 (c0 + toSigned16 (tz * 3600))
  (cache, toUInt32 cache)

/-- The process-wide cached epoch time. -/
structure ClockState where
  currentepochtime : Int

/-- LoggerBase::checkTime (lines 228-233): refresh the cache via getNow,
discarding the returned value. -/
def checkTime (rtcEpoch : Nat) (tz : Int) (st : ClockState) : ClockState :=
  { currentepochtime := (getNow rtcEpoch tz).1 }

/-- The trigger test at line 473 of LoggerBase::log,
currentepochtime % loggingIntervalMinutes*60 == 0, with the C++
precedence under which % and * associate left to right and % truncates
toward zero. -/
def logTriggers (loggingIntervalMinutes currentepochtime : Int) : Bool :=
  Int.tmod currentepochtime loggingIntervalMinutes * 60 == 0

/-- The alignment test the claims describe: the cached epoch is an exact
multiple of loggingIntervalMinutes * 60 seconds. -/
def specTriggers (loggingIntervalMinutes currentepochtime : Int) : Bool :=
  Int.tmod currentepochtime (loggingIntervalMinutes * 60) == 0

/-- One call to LoggerBase::log (lines 467-495) as far as the clock is
concerned: timer.update may fire checkTime, then the trigger test reads
the cached epoch.  Returns the clock state after the call and whether a
logging cycle was performed. -/
def logStep (interval : Int) (timerFires : Bool) (rtcEpoch : Nat) (tz : Int)
    (st : ClockState) : ClockState × Bool :=
  let st1 := if timerFires then checkTime rtcEpoch tz st else st
  (st1, logTriggers interval st1.currentepochtime)

/-- The static initial value of the LoggerBase::sleep flag (line 25). -/
def initialSleepFlag : Bool := false

/-- The flag update in LoggerBase::setup (lines 457-461): the flag is
set to true exactly when an interrupt pin other than -1 is supplied, and
is otherwise left untouched. -/
def setupSleepFlag (interruptPin : Int) (sleepFlag : Bool) : Bool :=
  if interruptPin ≠ -1 then true else sleepFlag

/-- Line 494 of LoggerBase::log: systemSleep is invoked on this call
exactly when the sleep flag is set. -/
def logInvokesSystemSleep (sleepFlag : Bool) : Bool := sleepFlag

/-- Number of systemSleep invocations performed by k successive calls to
LoggerBase::log under a given sleep flag. -/
def countSystemSleeps (sleepFlag : Bool) : Nat → Nat
  | 0 => 0
  | k + 1 => countSystemSleeps sleepFlag k +
      (if logInvokesSystemSleep sleepFlag then 1 else 0)

/-- The side effects LoggerBase::systemSleep performs, in source
order. -/
inductive SleepEffect where
  | sensorSleep (i : Nat)
  | serialFlush
  | serial1Flush
  | clearINTStatus
  | adcDisable
  | interruptsOff
  | sleepEnable
  | interruptsOn
  | sleepCPU
  | sleepDisable
  | adcEnable
  | sensorWake (i : Nat)
deriving DecidableEq

/-- LoggerBase::sensorsSleep (lines 156-166): sleep every sensor handle
in index order, duplicates included. -/
def sensorsSleepTrace (n : Nat) : List SleepEffect :=
  (List.range n).map SleepEffect.sensorSleep

/-- LoggerBase::sensorsWake (lines 168-178): wake every sensor handle in
index order, duplicates included. -/
def sensorsWakeTrace (n : Nat) : List SleepEffect :=
  (List.range n).map SleepEffect.sensorWake

/-- The straight-line body of LoggerBase::systemSleep between the two
sensor fan-outs (lines 295-320), in the order the statements occur in
the source: flush both serial ports, clear the RTC interrupt flag,
disable the ADC, disable interrupts, set the sleep-enable bit, re-enable
interrupts, halt the core, and on resume clear the sleep-enable bit and
re-enable the ADC. -/
def sleepCoreEffects : List SleepEffect :=
  [SleepEffect.serialFlush, SleepEffect.serial1Flush,
    SleepEffect.clearINTStatus, SleepEffect.adcDisable,
    SleepEffect.interruptsOff, SleepEffect.sleepEnable,
    SleepEffect.interruptsOn, SleepEffect.sleepCPU,
    SleepEffect.sleepDisable, SleepEffect.adcEnable]

/-- The effect trace of LoggerBase::systemSleep (lines 287-323), in the
order the statements occur in the source. -/
def systemSleepTrace (n : Nat) : List SleepEffect :=
  sensorsSleepTrace n ++ sleepCoreEffects ++ sensorsWakeTrace n

/-- The position each effect occupies in the ordering the specification
prescribes for systemSleep: sensor sleeps first, then the two serial
flushes, the RTC interrupt-flag clear, the ADC disable, the
interrupt-disable, the sleep arm, the interrupt re-enable, the halt,
and on resume the sleep disarm, the ADC re-enable and the sensor
wakes. -/
def sleepPhase : SleepEffect → Nat
  | SleepEffect.sensorSleep _ => 0
  | SleepEffect.serialFlush => 1
  | SleepEffect.serial1Flush => 2
  | SleepEffect.clearINTStatus => 3
  | SleepEffect.adcDisable => 4
  | SleepEffect.interruptsOff => 5
  | SleepEffect.sleepEnable => 6
  | SleepEffect.interruptsOn => 7
  | SleepEffect.sleepCPU => 8
  | SleepEffect.sleepDisable => 9
  | SleepEffect.adcEnable => 10
  | SleepEffect.sensorWake _ => 11

/-- The update loop invokes update exactly at the indices the
deduplicating iteration pattern visits. -/
theorem updateLoop_snd (n : Nat) (dev : Nat → SensorDev) (i : Nat)
    (success : Bool) (acc : List Nat) :
    (updateLoop n dev i success acc).2 = acc ++ visitedFrom n (pairOf dev) i := by
  unfold updateLoop visitedFrom
  by_cases h : i < n
  · simp only [dif_pos h]
    rw [updateLoop_snd n dev _ _ _]
    simp
  · simp only [dif_neg h]
    simp
termination_by n - i
decreasing_by
  have := le_advanceIdx n (pairOf dev) i (i + 1) (Nat.le_succ i)
  omega

/-- The setup loop runs its retry loop exactly at the indices the
deduplicating iteration pattern visits. -/
theorem setupLoop_visited (n : Nat) (dev : Nat → SensorDev) (i : Nat)
    (success sensorSuccess : Bool) (setupTries : Nat) (acc : List (Nat × Nat)) :
    (setupLoop n dev i success sensorSuccess setupTries acc).2.map Prod.fst =
      acc.map Prod.fst ++ visitedFrom n (pairOf dev) i := by
  unfold setupLoop visitedFrom
  by_cases h : i < n
  · simp only [dif_pos h]
    rw [setupLoop_visited n dev _ _ _ _ _]
    simp
  · simp only [dif_neg h]
    simp
termination_by n - i
decreasing_by
  have := le_advanceIdx n (pairOf dev) i (i + 1) (Nat.le_succ i)
  omega

/-- Membership in the visited-index list: starting from index i, the
visited indices are i itself and every later in-range index whose
(name, location) pair differs from its predecessor. -/
theorem mem_visitedFrom (n : Nat) (pair : Nat → String × String) (i k : Nat) :
    k ∈ visitedFrom n pair i ↔
      k < n ∧ (k = i ∨ (i < k ∧ pair k ≠ pair (k - 1))) := by
  unfold visitedFrom
  by_cases h : i < n
  · simp only [dif_pos h, List.mem_cons]
    rw [mem_visitedFrom n pair (advanceIdx n pair i (i + 1) + 1) k]
    have hia := le_advanceIdx n pair i (i + 1) (Nat.le_succ i)
    have hrun := advanceIdx_run n pair i
    constructor
    · rintro (rfl | ⟨hkn, hcase⟩)
      · exact ⟨h, Or.inl rfl⟩
      · refine ⟨hkn, Or.inr ?_⟩
        rcases hcase with rfl | ⟨hak, hne⟩
        · exact ⟨by omega, by simpa using hrun.2 hkn⟩
        · exact ⟨by omega, hne⟩
    · rintro ⟨hkn, (rfl | ⟨hik, hne⟩)⟩
      · exact Or.inl rfl
      · right
        refine ⟨hkn, ?_⟩
        rcases Nat.lt_or_ge (advanceIdx n pair i (i + 1)) k with hak | hak
        · rcases Nat.eq_or_lt_of_le (Nat.succ_le_of_lt hak) with heq | hlt2
          · exact Or.inl heq.symm
          · exact Or.inr ⟨hlt2, hne⟩
        · exact absurd (hrun.1 k hik hak) hne
  · simp only [dif_neg h, List.not_mem_nil, false_iff]
    rintro ⟨hkn, rfl | ⟨hik, _⟩⟩ <;> omega
termination_by n - i
decreasing_by
  have := le_advanceIdx n pair i (i + 1) (Nat.le_succ i)
  omega

/-- The visited-index list is strictly increasing: no index is processed
twice. -/
theorem visitedFrom_sorted (n : Nat) (pair : Nat → String × String) (i : Nat) :
    List.Sorted (· < ·) (visitedFrom n pair i) := by
  unfold visitedFrom
  by_cases h : i < n
  · simp only [dif_pos h, List.sorted_cons]
    have hia := le_advanceIdx n pair i (i + 1) (Nat.le_succ i)
    refine ⟨fun b hb => ?_, visitedFrom_sorted n pair _⟩
    rw [mem_visitedFrom] at hb
    rcases hb with ⟨_, rfl | ⟨hab, _⟩⟩ <;> omega
  · simp only [dif_neg h]
    exact List.sorted_nil
termination_by n - i
decreasing_by
  have := le_advanceIdx n pair i (i + 1) (Nat.le_succ i)
  omega

/-- Claim C4: in setupSensors and updateAllSensors, a run of sensors at
consecutive indices with identical (name, location) pairs is processed
exactly once, at its first element; the remaining elements of the run
are skipped and the scan resumes at the first index after the run.
Formally: both loops operate on exactly the same index list; that list
is strictly increasing, so no index is processed twice; and an index is
processed precisely when it is in range and is either index 0 or
differs in (name, location) from its predecessor, i.e. exactly the
first elements of the maximal runs of identical sensors. -/
theorem dedup_skips_identical_runs (n : Nat) (dev : Nat → SensorDev) :
    (updateAllSensors n dev).2 = visitedFrom n (pairOf dev) 0 ∧
      (setupSensors n dev).2.map Prod.fst = visitedFrom n (pairOf dev) 0 ∧
      List.Sorted (· < ·) (visitedFrom n (pairOf dev) 0) ∧
      (∀ k, k ∈ visitedFrom n (pairOf dev) 0 ↔
        k < n ∧ (k = 0 ∨ pairOf dev k ≠ pairOf dev (k - 1))) := by
  refine ⟨?_, ?_, visitedFrom_sorted n (pairOf dev) 0, fun k => ?_⟩
  · simpa using updateLoop_snd n dev 0 true []
  · simpa using setupLoop_visited n dev 0 true false 0 []
  · rw [mem_visitedFrom]
    constructor
    · rintro ⟨h1, h2 | ⟨h3, h4⟩⟩
      · exact ⟨h1, Or.inl h2⟩
      · exact ⟨h1, Or.inr h4⟩
    · rintro ⟨h1, h2 | h4⟩
      · exact ⟨h1, Or.inl h2⟩
      · rcases Nat.eq_zero_or_pos k with rfl | hk
        · exact ⟨h1, Or.inl rfl⟩
        · exact ⟨h1, Or.inr ⟨hk, h4⟩⟩

/-- The offset-suffix table as the specification states it: Z at zero,
sign and zero-padded magnitude up to nine hours, sign and two-digit
magnitude from ten to twenty-four hours, and for minus ten down to minus
twenty-four the offset rendered as given with no added sign. -/
def tzStringSpec (tz : Int) : String :=
  if tz = 0 then "Z"
  else if 0 < tz ∧ tz < 10 then "+0" ++ toString tz ++ ":00"
  else if 10 ≤ tz ∧ tz ≤ 24 then "+" ++ toString tz ++ ":00"
  else if -10 < tz ∧ tz < 0 then "-0" ++ toString (-tz) ++ ":00"
  else toString tz ++ ":00"

/-- Claim C3: for every integer time-zone offset between -24 and 24, the
suffix getDateTime_ISO8601 appends equals the table of the
specification: Z for zero, +0H:00 on (0,10), +H:00 on [10,24], sign then
zero-padded magnitude on (-10,0), and on [-24,-10] the offset as
rendered by String(int) followed by :00, with no added sign. -/
theorem tzString_matches_spec_table (tz : Int) (h1 : -24 ≤ tz) (h2 : tz ≤ 24) :
    tzString tz = tzStringSpec tz := by
  interval_cases tz <;> rfl

/-- Witness for claim C3 at the concrete offset 5. -/
theorem tzString_matches_spec_table_witness :
    -24 ≤ (5 : Int) ∧ (5 : Int) ≤ 24 ∧ tzString 5 = tzStringSpec 5 :=
  ⟨by decide, by decide, tzString_matches_spec_table 5 (by decide) (by decide)⟩

/-- The go loop of String.intercalate distributes over a prefix of its
accumulator. -/
theorem intercalate_go_append (s : String) (l : List String) :
    ∀ acc₁ acc₂ : String,
      String.intercalate.go (acc₁ ++ acc₂) s l =
        acc₁ ++ String.intercalate.go acc₂ s l := by
  induction l with
  | nil => intro acc₁ acc₂; rfl
  | cons a as ih =>
    intro acc₁ acc₂
    simp only [String.intercalate.go]
    rw [String.append_assoc, String.append_assoc, ih, String.append_assoc]

/-- Unfolding String.intercalate on a list with at least two
elements. -/
theorem intercalate_cons_cons (s a b : String) (l : List String) :
    String.intercalate s (a :: b :: l) = a ++ s ++ String.intercalate s (b :: l) := by
  show String.intercalate.go a s (b :: l) = a ++ s ++ String.intercalate.go b s l
  simp only [String.intercalate.go]
  exact intercalate_go_append s l (a ++ s) b

/-- Once the index reaches the count, the join loop returns its
accumulator. -/
theorem joinLoop_exit (n : Nat) (item : Nat → String) (i : Nat) (acc : String)
    (h : n ≤ i) : joinLoop n item i acc = acc := by
  unfold joinLoop
  rw [dif_neg (by omega)]

/-- The join loop started inside the range produces the accumulator
followed by the comma-space intercalation of the remaining items. -/
theorem joinLoop_intercalate (n : Nat) (item : Nat → String) (i : Nat)
    (acc : String) (h : i < n) :
    joinLoop n item i acc =
      acc ++ String.intercalate ", " ((List.range' i (n - i)).map item) := by
  unfold joinLoop
  rw [dif_pos h]
  by_cases hlast : i + 1 = n
  · have hsep : (if i + 1 ≠ n then ", " else "") = "" := by simp [hlast]
    rw [hsep, joinLoop_exit n item (i + 1) _ (by omega)]
    have hr : n - i = 1 := by omega
    rw [hr]
    show acc ++ item i ++ "" = acc ++ String.intercalate ", " [item i]
    rw [String.append_empty]
    rfl
  · have hsep : (if i + 1 ≠ n then ", " else "") = ", " := by simp [hlast]
    rw [hsep, joinLoop_intercalate n item (i + 1) _ (by omega)]
    have hr : n - i = (n - (i + 1)) + 1 := by omega
    rw [hr, List.range'_succ]
    have hr2 : n - (i + 1) = (n - (i + 2)) + 1 := by omega
    rw [hr2, List.range'_succ]
    simp only [List.map_cons]
    rw [intercalate_cons_cons]
    simp [String.append_assoc]
termination_by n - i

/-- Claim C6: generateSensorDataCSV returns the comma-space
intercalation of the cached timestamp followed by the n sensor values in
list order — n+1 fields with the two-character separator between
consecutive fields and none after the last — except that for n = 0 the
result is the timestamp followed by a trailing comma-space. -/
theorem generateSensorDataCSV_fields (ts : String) (n : Nat)
    (value : Nat → String) :
    generateSensorDataCSV ts n value =
      if n = 0 then ts ++ ", "
      else String.intercalate ", " (ts :: (List.range n).map value) := by
  by_cases hn : n = 0
  · subst hn
    rw [if_pos rfl]
    exact joinLoop_exit 0 value 0 _ (by omega)
  · rw [if_neg hn]
    unfold generateSensorDataCSV
    rw [joinLoop_intercalate n value 0 (ts ++ ", ") (by omega)]
    rw [List.range_eq_range']
    obtain ⟨m, rfl⟩ : ∃ m, n = m + 1 := ⟨n - 1, by omega⟩
    rw [Nat.sub_zero, List.range'_succ]
    simp only [List.map_cons]
    rw [intercalate_cons_cons]

/-- For a fixed filename: the header is appended exactly when the file
was absent at open time, the file exists afterwards, a repeat call
appends nothing, and logToSD appends only its record line. -/
theorem setupLogFileNamed_spec (fname : String) (hdr : List String)
    (sd : SDCard) (recLine : String) :
    ((setupLogFileNamed fname hdr sd).content fname =
      sd.content fname ++ (if sd.present fname then [] else hdr)) ∧
      ((setupLogFileNamed fname hdr sd).present fname = true) ∧
      ((setupLogFileNamed fname hdr (setupLogFileNamed fname hdr sd)).content
          fname = (setupLogFileNamed fname hdr sd).content fname) ∧
      ((logToSD fname recLine (setupLogFileNamed fname hdr sd)).content fname =
        (setupLogFileNamed fname hdr sd).content fname ++ [recLine]) := by
  cases hp : sd.present fname <;>
    simp [setupLogFileNamed, sdOpenWrite, sdAppend, logToSD, hp]

/-- Claim C5: setupLogFile writes the three header lines exactly when
the daily file did not already exist at open time; after one
setupLogFile call the file exists, so a second setupLogFile call on the
same day appends nothing, and logToSD on the same day appends only the
record line, never a second header. -/
theorem setupLogFile_header_exactly_once
    (loggerID samplingFeature dateISO : String) (n : Nat)
    (dev : Nat → SensorDev) (uuid : Nat → String) (sd : SDCard)
    (recLine : String) :
    ((setupLogFile loggerID samplingFeature dateISO n dev uuid sd).content
        (logFileName loggerID dateISO) =
      sd.content (logFileName loggerID dateISO) ++
        (if sd.present (logFileName loggerID dateISO) then []
          else headerLines loggerID samplingFeature n dev uuid)) ∧
      ((setupLogFile loggerID samplingFeature dateISO n dev uuid sd).present
          (logFileName loggerID dateISO) = true) ∧
      ((setupLogFile loggerID samplingFeature dateISO n dev uuid
          (setupLogFile loggerID samplingFeature dateISO n dev uuid sd)).content
          (logFileName loggerID dateISO) =
        (setupLogFile loggerID samplingFeature dateISO n dev uuid sd).content
          (logFileName loggerID dateISO)) ∧
      ((logToSD (logFileName loggerID dateISO) recLine
          (setupLogFile loggerID samplingFeature dateISO n dev uuid sd)).content
          (logFileName loggerID dateISO) =
        (setupLogFile loggerID samplingFeature dateISO n dev uuid sd).content
          (logFileName loggerID dateISO) ++ [recLine]) := by
  simpa only [setupLogFile] using
    setupLogFileNamed_spec (logFileName loggerID dateISO)
      (headerLines loggerID samplingFeature n dev uuid) sd recLine

/-- Claim C7: starting from the static initial state the sleep flag is
false; setup leaves it false when the interrupt pin is -1 so no number
of log calls ever invokes systemSleep, and setup sets it exactly when
another pin is supplied, after which every log call invokes
systemSleep. -/
theorem sleep_flag_gates_systemSleep (pin : Int) (k : Nat) :
    (pin = -1 →
      setupSleepFlag pin initialSleepFlag = false ∧
        countSystemSleeps (setupSleepFlag pin initialSleepFlag) k = 0) ∧
      (pin ≠ -1 →
        setupSleepFlag pin initialSleepFlag = true ∧
          countSystemSleeps (setupSleepFlag pin initialSleepFlag) k = k) := by
  constructor
  · rintro rfl
    have hflag : setupSleepFlag (-1) initialSleepFlag = false := rfl
    refine ⟨hflag, ?_⟩
    rw [hflag]
    induction k with
    | zero => rfl
    | succ k ih =>
      simp [countSystemSleeps, logInvokesSystemSleep, ih]
  · intro hpin
    have hflag : setupSleepFlag pin initialSleepFlag = true := by
      simp [setupSleepFlag, hpin]
    refine ⟨hflag, ?_⟩
    rw [hflag]
    induction k with
    | zero => rfl
    | succ k ih =>
      simp [countSystemSleeps, logInvokesSystemSleep, ih]

/-- Witness for claim C7: with no interrupt pin three log calls perform
no systemSleep, with pin 7 they perform three. -/
theorem sleep_flag_gates_systemSleep_witness :
    countSystemSleeps (setupSleepFlag (-1) initialSleepFlag) 3 = 0 ∧
      countSystemSleeps (setupSleepFlag 7 initialSleepFlag) 3 = 3 :=
  ⟨((sleep_flag_gates_systemSleep (-1) 3).1 rfl).2,
    ((sleep_flag_gates_systemSleep 7 3).2 (by decide)).2⟩

/-- Every effect of the sensor sleep fan-out is a sensor sleep. -/
theorem sensorsSleepTrace_phase (n : Nat) :
    ∀ e ∈ sensorsSleepTrace n, sleepPhase e = 0 := by
  intro e he
  simp only [sensorsSleepTrace, List.mem_map] at he
  obtain ⟨i, _, rfl⟩ := he
  rfl

/-- Every effect of the sensor wake fan-out is a sensor wake. -/
theorem sensorsWakeTrace_phase (n : Nat) :
    ∀ e ∈ sensorsWakeTrace n, sleepPhase e = 11 := by
  intro e he
  simp only [sensorsWakeTrace, List.mem_map] at he
  obtain ⟨i, _, rfl⟩ := he
  rfl

/-- Claim C8: the systemSleep trace performs its side effects in exactly
the claimed order — sensors to sleep first, then serial flush, RTC
interrupt-flag clear, ADC disable, interrupt disable, sleep arm,
interrupt re-enable, core halt, and on resume sleep disarm, ADC
re-enable and sensor wake.  Formally: along the trace the phase numbers
of the claimed ordering never decrease, the phase-0 prefix is exactly
the per-sensor sleep fan-out, the middle phases are exactly the ten
straight-line effects in source order, and the phase-11 suffix is
exactly the per-sensor wake fan-out. -/
theorem systemSleep_effect_order (n : Nat) :
    List.Pairwise (fun a b => sleepPhase a ≤ sleepPhase b) (systemSleepTrace n) ∧
      (systemSleepTrace n).filter (fun e => sleepPhase e == 0) =
        sensorsSleepTrace n ∧
      (systemSleepTrace n).filter
          (fun e => decide (1 ≤ sleepPhase e ∧ sleepPhase e ≤ 10)) =
        sleepCoreEffects ∧
      (systemSleepTrace n).filter (fun e => sleepPhase e == 11) =
        sensorsWakeTrace n := by
  have hA := sensorsSleepTrace_phase n
  have hW := sensorsWakeTrace_phase n
  have hM : ∀ e ∈ sleepCoreEffects, 1 ≤ sleepPhase e ∧ sleepPhase e ≤ 10 := by
    decide
  refine ⟨?_, ?_, ?_, ?_⟩
  · rw [systemSleepTrace, List.pairwise_append, List.pairwise_append]
    refine ⟨⟨?_, ?_, ?_⟩, ?_, ?_⟩
    · exact List.pairwise_of_forall_mem_list
        (fun a ha b hb => by rw [hA a ha, hA b hb])
    · decide
    · intro a ha b hb
      rw [hA a ha]
      exact Nat.zero_le _
    · exact List.pairwise_of_forall_mem_list
        (fun a ha b hb => by rw [hW a ha, hW b hb])
    · intro a ha b hb
      rw [hW b hb]
      rcases List.mem_append.mp ha with h | h
      · rw [hA a h]; omega
      · have := hM a h; omega
  · have h1 : (sensorsSleepTrace n).filter (fun e => sleepPhase e == 0) =
        sensorsSleepTrace n :=
      List.filter_eq_self.mpr (fun a ha => by simp [hA a ha])
    have h2 : sleepCoreEffects.filter (fun e => sleepPhase e == 0) = [] := by
      decide
    have h3 : (sensorsWakeTrace n).filter (fun e => sleepPhase e == 0) = [] :=
      List.filter_eq_nil_iff.mpr (fun a ha => by simp [hW a ha])
    rw [systemSleepTrace, List.filter_append, List.filter_append, h1, h2, h3]
    simp
  · have h1 : (sensorsSleepTrace n).filter
        (fun e => decide (1 ≤ sleepPhase e ∧ sleepPhase e ≤ 10)) = [] :=
      List.filter_eq_nil_iff.mpr (fun a ha => by simp [hA a ha])
    have h2 : sleepCoreEffects.filter
        (fun e => decide (1 ≤ sleepPhase e ∧ sleepPhase e ≤ 10)) =
          sleepCoreEffects := by decide
    have h3 : (sensorsWakeTrace n).filter
        (fun e => decide (1 ≤ sleepPhase e ∧ sleepPhase e ≤ 10)) = [] :=
      List.filter_eq_nil_iff.mpr (fun a ha => by simp [hW a ha])
    rw [systemSleepTrace, List.filter_append, List.filter_append, h1, h2, h3]
    simp
  · have h1 : (sensorsSleepTrace n).filter (fun e => sleepPhase e == 11) = [] :=
      List.filter_eq_nil_iff.mpr (fun a ha => by simp [hA a ha])
    have h2 : sleepCoreEffects.filter (fun e => sleepPhase e == 11) = [] := by
      decide
    have h3 : (sensorsWakeTrace n).filter (fun e => sleepPhase e == 11) =
        sensorsWakeTrace n :=
      List.filter_eq_self.mpr (fun a ha => by simp [hW a ha])
    rw [systemSleepTrace, List.filter_append, List.filter_append, h1, h2, h3]
    simp

/-- The uint8_t index after k increments is k modulo 256. -/
theorem u8idx_eq (k : Nat) : u8idx k = k % 256 := by
  induction k with
  | zero => rfl
  | succ k ih =>
    show (u8idx k + 1) % 256 = (k + 1) % 256
    rw [ih, Nat.add_mod k 1 256]

/-- Claim C9: the loops of updateAllSensors, generateSensorDataCSV and
the header builder of setupLogFile run on a uint8_t index, so for a
sensor count of at most 255 the loop exit test first succeeds after
exactly n increments, while for any count above 255 the wrapped index
stays below the count forever and the loop never exits; the int-indexed
loops of setupSensors and the sleep and wake fan-outs exit after exactly
n increments for every count n. -/
theorem u8_loop_termination (n : Nat) :
    (n ≤ 255 → ∃ h : ∃ k, n ≤ u8idx k, Nat.find h = n) ∧
      (255 < n → ∀ k, u8idx k < n) ∧
      (∀ h : ∃ k, n ≤ intIdx k, Nat.find h = n) := by
  refine ⟨fun h255 => ?_, fun h255 k => ?_, fun h => ?_⟩
  · refine ⟨⟨n, by rw [u8idx_eq]; omega⟩, ?_⟩
    rw [Nat.find_eq_iff]
    refine ⟨by rw [u8idx_eq]; omega, fun m hm => ?_⟩
    rw [u8idx_eq]
    omega
  · rw [u8idx_eq]
    omega
  · rw [Nat.find_eq_iff]
    unfold intIdx
    exact ⟨Nat.le_refl n, fun m hm => by omega⟩

/-- Witness for claim C9: with three sensors the uint8_t loop exits
after exactly three increments; with three hundred it never exits; the
int-indexed loop exits after exactly five increments for five
sensors. -/
theorem u8_loop_termination_witness :
    (∃ h : ∃ k, 3 ≤ u8idx k, Nat.find h = 3) ∧ (∀ k, u8idx k < 300) ∧
      Nat.find (⟨5, by decide⟩ : ∃ k, 5 ≤ intIdx k) = 5 :=
  ⟨(u8_loop_termination 3).1 (by decide),
    fun k => (u8_loop_termination 300).2.1 (by decide) k,
    (u8_loop_termination 5).2.2 ⟨5, by decide⟩⟩

/-- Claim C10 counterexample: at offset 12 the int product 12*3600 =
43200 wraps to -22336 in the 16-bit int of the AVR target, so at RTC
epoch 1000000000 getNow caches 1000000000 - 22336 = 999977664 and not
the claimed 1000000000 + 43200. -/
theorem getNow_tz16_overflow_counterexample :
    (getNow 1000000000 12).1 = (1000000000 : Int) - 22336 ∧
      (getNow 1000000000 12).1 ≠ (1000000000 : Int) + 12 * 3600 := by
  decide

/-- Claim C10 as amended: under realistic epoch magnitudes getNow
stores the RTC epoch shifted by the 16-bit int product timeZone*3600
into the cache — which equals timeZone*3600 seconds exactly when the
offset magnitude is at most 9 hours, and wraps for larger offsets — and
returns that same cached value; checkTime re-establishes the cache the
same way; and the alignment test of log is evaluated on the cached
value — the freshly shifted local epoch when the timer tick fired, and
whatever the last refresh cached when it did not — never on a raw RTC
reading. -/
theorem getNow_caches_shifted_localtime (rtcEpoch : Nat) (tz : Int)
    (interval : Int) (st : ClockState)
    (h1 : 0 ≤ (rtcEpoch : Int) + toSigned16 (tz * 3600))
    (h2 : (rtcEpoch : Int) + toSigned16 (tz * 3600) < 2147483648)
    (h3 : rtcEpoch < 2147483648) :
    (getNow rtcEpoch tz).1 = (rtcEpoch : Int) + toSigned16 (tz * 3600) ∧
      (-9 ≤ tz → tz ≤ 9 →
        (getNow rtcEpoch tz).1 = (rtcEpoch : Int) + tz * 3600) ∧
      ((getNow rtcEpoch tz).2 : Int) = (getNow rtcEpoch tz).1 ∧
      (checkTime rtcEpoch tz st).currentepochtime =
        (rtcEpoch : Int) + toSigned16 (tz * 3600) ∧
      (logStep interval true rtcEpoch tz st).2 =
        logTriggers interval ((rtcEpoch : Int) + toSigned16 (tz * 3600)) ∧
      (logStep interval false rtcEpoch tz st).2 =
        logTriggers interval st.currentepochtime := by
  have hs : -32768 ≤ toSigned16 (tz * 3600) ∧ toSigned16 (tz * 3600) < 32768 := by
    simp only [toSigned16]
    split_ifs <;> omega
  have hfst : (getNow rtcEpoch tz).1 =
      (rtcEpoch : Int) + toSigned16 (tz * 3600) := by
    simp only [getNow, toSigned32]
    split_ifs <;> omega
  have h9 : -9 ≤ tz → tz ≤ 9 →
      (getNow rtcEpoch tz).1 = (rtcEpoch : Int) + tz * 3600 := by
    intro ha hb
    rw [hfst]
    have h16 : toSigned16 (tz * 3600) = tz * 3600 := by
      simp only [toSigned16]
      split_ifs <;> omega
    rw [h16]
  have hsnd : ((getNow rtcEpoch tz).2 : Int) = (getNow rtcEpoch tz).1 := by
    simp only [getNow, toSigned32, toUInt32]
    split_ifs <;> omega
  refine ⟨hfst, h9, hsnd, ?_, ?_, rfl⟩
  · simp [checkTime, hfst]
  · simp [logStep, checkTime, hfst]

/-- Witness for claim C10 at epoch 1000000000 and offset -5, an offset
whose 16-bit product does not wrap. -/
theorem getNow_caches_shifted_localtime_witness :
    (getNow 1000000000 (-5)).1 =
        (1000000000 : Int) + toSigned16 ((-5) * 3600) ∧
      (getNow 1000000000 (-5)).1 = (1000000000 : Int) + (-5) * 3600 ∧
      ((getNow 1000000000 (-5)).2 : Int) = (getNow 1000000000 (-5)).1 :=
  ⟨(getNow_caches_shifted_localtime 1000000000 (-5) 15 ⟨42⟩ (by decide)
      (by decide) (by decide)).1,
    (getNow_caches_shifted_localtime 1000000000 (-5) 15 ⟨42⟩ (by decide)
      (by decide) (by decide)).2.1 (by decide) (by decide),
    (getNow_caches_shifted_localtime 1000000000 (-5) 15 ⟨42⟩ (by decide)
      (by decide) (by decide)).2.2.1⟩

/-- Claim C1 (divergence witness): with a configured interval of 15
minutes, the trigger test of log fires at cached epoch 60 even though 60
is not a multiple of 15 * 60 = 900 seconds.  In the source the
expression currentepochtime % loggingIntervalMinutes*60 == 0 associates
as (currentepochtime % loggingIntervalMinutes) * 60 == 0, so the cycle
runs whenever the epoch is a multiple of the interval count read in
seconds, not of the interval converted to seconds. -/
theorem log_trigger_precedence : logTriggers 15 60 = true ∧ specTriggers 15 60 = false := by
  decide

/-- A sensor whose setup never succeeds. -/
def alwaysFailDev : SensorDev :=
  { name := "A", location := "1", setupResult := fun _ => false,
    updateResult := true, value := "0", varName := "v", varUnit := "u" }

/-- A sensor whose setup succeeds on the first call. -/
def alwaysOkDev : SensorDev :=
  { name := "B", location := "2", setupResult := fun _ => true,
    updateResult := true, value := "1", varName := "w", varUnit := "u" }

/-- A two-sensor list: a failing sensor followed by a distinct healthy
one. -/
def budgetDevs : Nat → SensorDev :=
  fun i => if i = 0 then alwaysFailDev else alwaysOkDev

/-- Claim C2 (divergence witness): setupTries is declared outside the
sensor loop and never reset, so the five-failure retry budget is shared
by the whole list.  On the list above the first sensor consumes all
five attempts; the second, distinct sensor is then attempted zero times
instead of at least once, and its recorded result is the stale false
left by the first sensor. -/
theorem setupSensors_shared_retry_budget :
    setupSensors 2 budgetDevs = (false, [(0, 5), (1, 0)]) := by
  simp [setupSensors, setupLoop, trySetup, advanceIdx, budgetDevs,
    alwaysFailDev, alwaysOkDev, pairOf]
